import Mathlib

/-!
Verification development for the traffic-simulation platform.

This file gives a shallow embedding, in Lean 4, of the core algorithms and
state machines of the platform: the rhythm / detection-risk scorer
(simulation-workers/src/utils/rhythm_calculator.py), the campaign lifecycle
(backend/src/models/campaign.py and backend/src/api/campaigns.py), the
session status writes of the simulation engine
(simulation-workers/src/core/simulation_engine.py together with
simulation-workers/src/services/session_service.py), the dispatch pass of the
orchestrator (backend/src/services/simulation_orchestrator.py), the
navigation-failure handling of the simple worker
(simulation-workers/src/workers/simple_worker.py), and the bounded
browser-context pool (simulation-workers/src/core/browser_manager.py).

Python float arithmetic is modelled exactly: event timestamps and all derived
ratios are rationals, and the only irrational operation, math.sqrt, is
modelled by Real.sqrt, so score-valued functions land in the real numbers.
-/

namespace TrafficSim

/-! ## Rhythm calculator: data model

RhythmEvent embeds the dataclass of rhythm_calculator.py.  The details
dictionary is only ever read at two keys: details.get("position", 0) in the
back-track score, and the membership test for the key "error" in the
perfect-accuracy detector; the embedding carries exactly those two
observations. -/

structure RhythmEvent where
  timestamp : ℚ
  eventType : String
  position : ℚ := 0
  hasError : Bool := false
deriving DecidableEq

/-- sortEvents models the Python stable sort of events by timestamp performed
in RhythmCalculator._convert_to_rhythm_events. -/
def insertByTime (e : RhythmEvent) : List RhythmEvent → List RhythmEvent
  | [] => [e]
  | x :: xs =>
    if e.timestamp ≤ x.timestamp then e :: x :: xs else x :: insertByTime e xs

def sortEvents : List RhythmEvent → List RhythmEvent
  | [] => []
  | e :: es => insertByTime e (sortEvents es)

/-- intervalsOf models the interval loops of rhythm_calculator.py: the list of
consecutive timestamp differences, converted to milliseconds. -/
def intervalsOf (es : List RhythmEvent) : List ℚ :=
  (es.zip es.tail).map (fun p => (p.2.timestamp - p.1.timestamp) * 1000)

/-- listMean models statistics.mean (callers guard against empty input). -/
def listMean (l : List ℚ) : ℚ := l.sum / l.length

/-- sampleVariance models statistics.variance: sum of squared deviations from
the mean over n - 1 (callers guard against fewer than two data points). -/
def sampleVariance (l : List ℚ) : ℚ :=
  (l.map (fun x => (x - listMean l) ^ 2)).sum / ((l.length : ℚ) - 1)

/-- coefficientOfVariation models the three-line pattern repeated in
rhythm_calculator.py: variance is statistics.variance when more than one
interval exists else 0, and the coefficient is sqrt(variance)/mean when the
mean is positive else 0. -/
noncomputable def coefficientOfVariation (l : List ℚ) : ℝ :=
  let m := listMean l
  let v : ℚ := if 1 < l.length then sampleVariance l else 0
  if 0 < m then Real.sqrt (v : ℝ) / (m : ℝ) else 0

/-- varianceScore models min(1.0, coefficient_of_variation / threshold). -/
noncomputable def varianceScore (l : List ℚ) (threshold : ℝ) : ℝ :=
  min 1 (coefficientOfVariation l / threshold)

/-- pauseFrac is the fraction of intervals longer than 1000 ms. -/
def pauseFrac (l : List ℚ) : ℚ :=
  (l.countP (fun x => decide (1000 < x)) : ℚ) / (l.length : ℚ)

/-- pauseScore models RhythmCalculator._calculate_pause_score. -/
noncomputable def pauseScore (l : List ℚ) : ℝ :=
  if l = [] then 0 else min 1 ((pauseFrac l : ℝ) / 0.2)

/-- backtrackScore models RhythmCalculator._calculate_backtrack_score. -/
noncomputable def backtrackScore (scrollEvents : List RhythmEvent) : ℝ :=
  if scrollEvents.length < 3 then 0.5
  else
    let positions := scrollEvents.map (·.position)
    let backtracks := (positions.zip positions.tail).countP (fun p => decide (p.2 < p.1))
    let frac : ℚ := (backtracks : ℚ) / ((positions.length : ℚ) - 1)
    min 1 ((frac : ℝ) / 0.1)

/-- doubleClickScore models RhythmCalculator._calculate_double_click_score;
the interval recomputation there coincides with intervalsOf. -/
noncomputable def doubleClickScore (clickEvents : List RhythmEvent) : ℝ :=
  if clickEvents.length < 2 then 0.5
  else
    let doubleClicks := (intervalsOf clickEvents).countP (fun x => decide (x < 500))
    let frac : ℚ := (doubleClicks : ℚ) / ((clickEvents.length : ℚ) - 1)
    min 1 ((frac : ℝ) / 0.05)

/-- isType is the event-type filter used by the per-category scorers. -/
def isType (t : String) (e : RhythmEvent) : Bool := decide (e.eventType = t)

/-- typingRhythmScore models RhythmCalculator._calculate_typing_rhythm_score. -/
noncomputable def typingRhythmScore (events : List RhythmEvent) : ℝ :=
  let typingEvents := events.filter (isType "typing")
  if typingEvents.length < 2 then 0.5
  else
    let ints := intervalsOf typingEvents
    if ints = [] then 0.5
    else (varianceScore ints 0.3 + pauseScore ints) / 2

/-- scrollRhythmScore models RhythmCalculator._calculate_scroll_rhythm_score. -/
noncomputable def scrollRhythmScore (events : List RhythmEvent) : ℝ :=
  let scrollEvents := events.filter (isType "scroll")
  if scrollEvents.length < 2 then 0.5
  else
    let ints := intervalsOf scrollEvents
    if ints = [] then 0.5
    else (varianceScore ints 0.4 + pauseScore ints + backtrackScore scrollEvents) / 3

/-- clickRhythmScore models RhythmCalculator._calculate_click_rhythm_score. -/
noncomputable def clickRhythmScore (events : List RhythmEvent) : ℝ :=
  let clickEvents := events.filter (isType "click")
  if clickEvents.length < 2 then 0.5
  else
    let ints := intervalsOf clickEvents
    if ints = [] then 0.5
    else (varianceScore ints 0.3 + pauseScore ints + doubleClickScore clickEvents) / 3

/-- timingRhythmScore models RhythmCalculator._calculate_timing_rhythm_score. -/
noncomputable def timingRhythmScore (events : List RhythmEvent) : ℝ :=
  if events.length < 2 then 0.5
  else
    let ints := intervalsOf events
    if ints = [] then 0.5
    else (varianceScore ints 0.5 + pauseScore ints) / 2

/-- calculateRhythmScore models RhythmCalculator.calculate_rhythm_score:
empty input scores 0, otherwise the converted events are sorted and the four
category scores are combined with weights 0.3/0.3/0.2/0.2 and clamped. -/
noncomputable def calculateRhythmScore (events : List RhythmEvent) : ℝ :=
  if events = [] then 0
  else
    min 1 (max 0 (typingRhythmScore (sortEvents events) * 0.3 +
      scrollRhythmScore (sortEvents events) * 0.3 +
      clickRhythmScore (sortEvents events) * 0.2 +
      timingRhythmScore (sortEvents events) * 0.2))

/-! ## Rhythm calculator: detection-risk factors -/

/-- detectTooFastActions models RhythmCalculator._detect_too_fast_actions. -/
noncomputable def detectTooFastActions (events : List RhythmEvent) : ℝ :=
  if events.length < 2 then 0
  else
    let ints := intervalsOf events
    if ints = [] then 0
    else
      let frac : ℚ := ((ints.countP (fun x => decide (x < 50))) : ℚ) / (ints.length : ℚ)
      min 1 ((frac : ℝ) / 0.1)

/-- detectTooRegularPatterns models
RhythmCalculator._detect_too_regular_patterns. -/
noncomputable def detectTooRegularPatterns (events : List RhythmEvent) : ℝ :=
  if events.length < 3 then 0
  else
    let ints := intervalsOf events
    if ints = [] then 0
    else max 0 (1 - coefficientOfVariation ints / 0.1)

/-- detectNoPauses models RhythmCalculator._detect_no_pauses. -/
noncomputable def detectNoPauses (events : List RhythmEvent) : ℝ :=
  if events.length < 2 then 0
  else
    let ints := intervalsOf events
    if ints = [] then 0
    else max 0 (1 - (pauseFrac ints : ℝ) / 0.2)

/-- detectPerfectAccuracy models RhythmCalculator._detect_perfect_accuracy. -/
noncomputable def detectPerfectAccuracy (events : List RhythmEvent) : ℝ :=
  let typingEvents := events.filter (isType "typing")
  if typingEvents.length < 5 then 0
  else
    let errFrac : ℚ := ((typingEvents.countP (·.hasError)) : ℚ) / (typingEvents.length : ℚ)
    max 0 (1 - (errFrac : ℝ) / 0.02)

/-- detectUnrealisticTiming models
RhythmCalculator._detect_unrealistic_timing. -/
noncomputable def detectUnrealisticTiming (events : List RhythmEvent) : ℝ :=
  if events.length < 2 then 0
  else
    let ints := intervalsOf events
    if ints = [] then 0
    else
      let frac : ℚ :=
        ((ints.countP (fun x => decide (x < 10) || decide (30000 < x))) : ℚ) / (ints.length : ℚ)
      min 1 ((frac : ℝ) / 0.05)

/-- calculateDetectionRisk models RhythmCalculator.calculate_detection_risk:
empty input is maximally risky (1.0), otherwise the five risk factors are
averaged and clamped. -/
noncomputable def calculateDetectionRisk (events : List RhythmEvent) : ℝ :=
  if events = [] then 1
  else
    min 1 (max 0 ((detectTooFastActions (sortEvents events) +
      detectTooRegularPatterns (sortEvents events) + detectNoPauses (sortEvents events) +
      detectPerfectAccuracy (sortEvents events) +
      detectUnrealisticTiming (sortEvents events)) / 5))

/-- evC is a concrete click event used to instantiate hypotheses of the
claims about the scorer. -/
def evC : RhythmEvent := { timestamp := 0, eventType := "click" }

/-! ## Claim C2: detection risk as a mean of five indicators

The indicator definitions below follow the wording of the specification, to
be compared with the detector functions embedded from the source. -/

/-- tooFastDescribed: fraction of inter-event intervals below 50 ms over a
10 percent baseline (spec wording, no event-count guard). -/
noncomputable def tooFastDescribed (events : List RhythmEvent) : ℝ :=
  let ints := intervalsOf events
  min 1 (((((ints.countP (fun x => decide (x < 50))) : ℚ) / (ints.length : ℚ) : ℚ) : ℝ) / 0.1)

/-- tooRegularDescribed: one minus CV over 0.1, floored at 0 (spec wording,
no event-count guard). -/
noncomputable def tooRegularDescribed (events : List RhythmEvent) : ℝ :=
  max 0 (1 - coefficientOfVariation (intervalsOf events) / 0.1)

/-- noPausesDescribed: one minus the pause fraction over 0.2, floored at 0
(spec wording, no event-count guard). -/
noncomputable def noPausesDescribed (events : List RhythmEvent) : ℝ :=
  max 0 (1 - (pauseFrac (intervalsOf events) : ℝ) / 0.2)

/-- perfectAccuracyDescribed: one minus the error ratio over 0.02 when at
least 5 typing events exist, else 0 (spec wording). -/
noncomputable def perfectAccuracyDescribed (events : List RhythmEvent) : ℝ :=
  let typingEvents := events.filter (isType "typing")
  if typingEvents.length < 5 then 0
  else max 0 (1 - ((((typingEvents.countP (·.hasError)) : ℚ) / (typingEvents.length : ℚ) : ℚ) : ℝ) / 0.02)

/-- unrealisticDescribed: fraction of intervals below 10 ms or above 30 s
over a 5 percent baseline (spec wording, no event-count guard). -/
noncomputable def unrealisticDescribed (events : List RhythmEvent) : ℝ :=
  let ints := intervalsOf events
  min 1 (((((ints.countP (fun x => decide (x < 10) || decide (30000 < x))) : ℚ) / (ints.length : ℚ) : ℚ) : ℝ) / 0.05)

/-- detectionRiskDescribed renders claim C2 exactly as stated: the clamped
unweighted mean of the five indicators as the spec describes them, computed
on the time-sorted events. -/
noncomputable def detectionRiskDescribed (events : List RhythmEvent) : ℝ :=
  min 1 (max 0 ((tooFastDescribed (sortEvents events) +
    tooRegularDescribed (sortEvents events) + noPausesDescribed (sortEvents events) +
    perfectAccuracyDescribed (sortEvents events) +
    unrealisticDescribed (sortEvents events)) / 5))

/-- tooRegularClaimed: the too-regular indicator of the amended claim, which
adds the three-event guard present in the source. -/
noncomputable def tooRegularClaimed (events : List RhythmEvent) : ℝ :=
  if events.length < 3 then 0 else tooRegularDescribed events

/-- tooFastClaimed: the too-fast indicator of the amended claim (0 when
fewer than 2 events exist). -/
noncomputable def tooFastClaimed (events : List RhythmEvent) : ℝ :=
  if events.length < 2 then 0 else tooFastDescribed events

/-- noPausesClaimed: the no-pauses indicator of the amended claim (0 when
fewer than 2 events exist). -/
noncomputable def noPausesClaimed (events : List RhythmEvent) : ℝ :=
  if events.length < 2 then 0 else noPausesDescribed events

/-- unrealisticClaimed: the unrealistic-interval indicator of the amended
claim (0 when fewer than 2 events exist). -/
noncomputable def unrealisticClaimed (events : List RhythmEvent) : ℝ :=
  if events.length < 2 then 0 else unrealisticDescribed events

/-- detectionRiskClaimed renders the amended claim C2: the clamped unweighted
mean of the five indicators, with the event-count guards made explicit. -/
noncomputable def detectionRiskClaimed (events : List RhythmEvent) : ℝ :=
  min 1 (max 0 ((tooFastClaimed (sortEvents events) +
    tooRegularClaimed (sortEvents events) + noPausesClaimed (sortEvents events) +
    perfectAccuracyDescribed (sortEvents events) +
    unrealisticClaimed (sortEvents events)) / 5))

/-- evT0 and evT2 form a two-click list with a single 2000 ms interval, on
which the source detector for too-regular timing returns 0 (fewer than three
events) while the spec wording of that indicator yields 1. -/
def evT0 : RhythmEvent := { timestamp := 0, eventType := "click" }

def evT2 : RhythmEvent := { timestamp := 2, eventType := "click" }

/-- cW and vW instantiate the amended claim C1: two clicks 600 ms apart
versus two clicks 700 ms apart. -/
def cW : List RhythmEvent :=
  [{ timestamp := 0, eventType := "click" }, { timestamp := 3/5, eventType := "click" }]

def vW : List RhythmEvent :=
  [{ timestamp := 0, eventType := "click" }, { timestamp := 7/10, eventType := "click" }]

/-- constClicks: three clicks with constant 2000 ms intervals (zero
variance). -/
def constClicks : List RhythmEvent :=
  [{ timestamp := 0, eventType := "click" }, { timestamp := 2, eventType := "click" },
    { timestamp := 4, eventType := "click" }]

/-- variedClicks: three clicks with realistically varied 600 ms and 800 ms
intervals (coefficient of variation about 0.2). -/
def variedClicks : List RhythmEvent :=
  [{ timestamp := 0, eventType := "click" }, { timestamp := 3/5, eventType := "click" },
    { timestamp := 7/5, eventType := "click" }]

/-! ## Claim C4: campaign lifecycle guards

The definitions embed the status guards of the start/pause/resume route
handlers in backend/src/api/campaigns.py combined with the mutations of
Campaign.start/pause/resume in backend/src/models/campaign.py.  Timestamps
are abstracted to a natural-number clock value passed as "now". -/

inductive CampaignStatus
  | pending
  | running
  | paused
  | completed
  | failed
deriving DecidableEq

structure CampaignState where
  status : CampaignStatus
  startedAt : Option ℕ
  completedAt : Option ℕ
  updatedAt : ℕ
deriving DecidableEq

inductive LifecycleOutcome
  | ok
  | alreadyRunning
  | stateConflict
deriving DecidableEq

/-- startCampaign models POST /campaigns/id/start: an already-running
campaign reports success without mutation; a pending campaign is started
(Campaign.start sets status, started_at and updated_at); any other status is
rejected with HTTP 409 before any mutation. -/
def startCampaign (now : ℕ) (c : CampaignState) : CampaignState × LifecycleOutcome :=
  if c.status = .running then (c, .alreadyRunning)
  else if c.status = .pending then
    ({ c with status := .running, startedAt := some now, updatedAt := now }, .ok)
  else (c, .stateConflict)

/-- pauseCampaign models POST /campaigns/id/pause: only a running campaign
may pause (Campaign.pause sets status and updated_at); otherwise HTTP 409
with no mutation. -/
def pauseCampaign (now : ℕ) (c : CampaignState) : CampaignState × LifecycleOutcome :=
  if c.status = .running then ({ c with status := .paused, updatedAt := now }, .ok)
  else (c, .stateConflict)

/-- resumeCampaign models POST /campaigns/id/resume: only a paused campaign
may resume (Campaign.resume sets status and updated_at); otherwise HTTP 409
with no mutation. -/
def resumeCampaign (now : ℕ) (c : CampaignState) : CampaignState × LifecycleOutcome :=
  if c.status = .paused then ({ c with status := .running, updatedAt := now }, .ok)
  else (c, .stateConflict)

/-! ## Claim C5: session status writes of the simulation engine

sessionStatusEnum is the Postgres enum created by migration
003_create_sessions_table.py and mirrored by the SessionStatus model.
runSimulationStatusWrites lists, in order, the status strings that
SimulationEngine._run_simulation passes to
SessionService.update_session_status / update_session_completion for each
outcome of the run: the engine first writes running, then completed on
success (via update_session_completion), failed on an unhandled exception,
and paused when the asyncio task is cancelled. -/

def sessionStatusEnum : List String := ["pending", "running", "completed", "failed", "timeout"]

inductive SimulationRunOutcome
  | completedOk
  | errored (msg : String)
  | cancelled

def runSimulationStatusWrites : SimulationRunOutcome → List String
  | .completedOk => ["running", "completed"]
  | .errored _ => ["running", "failed"]
  | .cancelled => ["running", "paused"]

/-! ## Claim C6: visit_order contiguity

visitPageNumbers embeds the page loop of SimulationEngine._run_simulation,
which calls _visit_page with the pages_visited counter before incrementing
it, so the recorded page_number values are 0, 1, ..., n-1.
visitOrderOf embeds the coercion in SessionService.create_page_visit,
int(visit_data.get("page_number", 1) or 1): the Python expression 0 or 1
evaluates to 1, so page_number 0 is stored as visit_order 1 while every
other value is stored unchanged. -/

def visitPageNumbers (pagesVisited : ℕ) : List ℕ := List.range pagesVisited

def visitOrderOf (pageNumber : ℕ) : ℕ := if pageNumber = 0 then 1 else pageNumber

def recordedVisitOrders (pagesVisited : ℕ) : List ℕ :=
  (visitPageNumbers pagesVisited).map visitOrderOf

/-! ## Claim C7: navigation failure handling

NavOutcome abstracts the result of a page.goto call: either a response with
an HTTP status code, or a raised navigation exception. -/

inductive NavOutcome
  | ok (httpStatus : ℕ)
  | exn (msg : String)

/-- navFails states when the spec considers a navigation a failure: HTTP
status at least 400, or an exception. -/
def navFails : NavOutcome → Bool
  | .ok s => decide (400 ≤ s)
  | .exn _ => true

def navErrorMsg : NavOutcome → String
  | .ok s => "Erreur HTTP " ++ toString s
  | .exn m => m

structure SessionWrite where
  status : String
  errorMessage : Option String
deriving DecidableEq

/-- runSessionSync models SimpleNavigationWorker._run_session_sync: it
raises "Erreur HTTP s" when the navigation response has status at least
400, propagates a navigation exception, and otherwise succeeds. -/
def runSessionSync (nav : NavOutcome) : Except String Unit :=
  match nav with
  | .ok s => if 400 ≤ s then .error ("Erreur HTTP " ++ toString s) else .ok ()
  | .exn m => .error m

/-- simpleWorkerSessionRow models SimpleNavigationWorker.run_session plus
save_session_to_db: an exception from the sync session body marks the
result unsuccessful with the error string, and the session row is inserted
with status completed on success and failed otherwise, storing the error
message. -/
def simpleWorkerSessionRow (nav : NavOutcome) : SessionWrite :=
  match runSessionSync nav with
  | .ok _ => { status := "completed", errorMessage := none }
  | .error m => { status := "failed", errorMessage := some m }

/-- workerQueueAfter models one iteration of the SimpleNavigationWorker main
loop: lpop removes the job from simulation:pending, and nothing is pushed
back afterwards, whether the job succeeds or fails; the popped job is never
retried by the worker. -/
def workerQueueAfter (queue : List String) : List String := queue.tail

/-- enginePagesVisited embeds the page loop of
SimulationEngine._run_simulation: each successful _visit_page increments
pages_visited, and the first navigation exception is caught by the inner
except block, which logs and breaks out of the loop. -/
def enginePagesVisited : List NavOutcome → ℕ
  | [] => 0
  | .ok _ :: rest => enginePagesVisited rest + 1
  | .exn _ :: _ => 0

structure EngineSessionRecord where
  status : String
  errorMessage : Option String
  pagesVisited : ℕ
deriving DecidableEq

/-- engineSessionRecord embeds what SimulationEngine._run_simulation
persists after the page loop for a session whose navigations produced the
given outcomes: control always reaches
SessionService.update_session_completion, which sets status completed and
leaves error_message untouched; _visit_page never inspects
response.status, and a navigation exception only breaks the loop. -/
def engineSessionRecord (navs : List NavOutcome) : EngineSessionRecord :=
  { status := "completed", errorMessage := none, pagesVisited := enginePagesVisited navs }

/-! ## Claim C9: dispatch pass bound

maxConcurrentSessions is the fixed limit set in
SimulationOrchestrator.__init__ (self.max_concurrent_sessions = 10).
processCampaignSessions embeds _process_campaign_sessions: the query selects
the pending sessions of the campaign with
.limit(self.max_concurrent_sessions) and one job is enqueued per selected
session. -/

def maxConcurrentSessions : ℕ := 10

structure SessionRow where
  sessionId : ℕ
  campaignId : ℕ
  status : String
deriving DecidableEq

structure CampaignRow where
  campaignId : ℕ
  totalSessions : ℕ
  concurrentSessions : ℕ
deriving DecidableEq

def isPendingFor (cid : ℕ) (s : SessionRow) : Bool :=
  decide (s.campaignId = cid) && decide (s.status = "pending")

def processCampaignSessions (db : List SessionRow) (cid : ℕ) : List ℕ :=
  ((db.filter (isPendingFor cid)).take maxConcurrentSessions).map (·.sessionId)

/-- narrowCampaign has concurrent_sessions 2 (with total_sessions 5, so the
check constraint concurrent_sessions ≤ total_sessions holds). -/
def narrowCampaign : CampaignRow :=
  { campaignId := 1, totalSessions := 5, concurrentSessions := 2 }

def fivePendingSessions : List SessionRow :=
  [{ sessionId := 1, campaignId := 1, status := "pending" },
    { sessionId := 2, campaignId := 1, status := "pending" },
    { sessionId := 3, campaignId := 1, status := "pending" },
    { sessionId := 4, campaignId := 1, status := "pending" },
    { sessionId := 5, campaignId := 1, status := "pending" }]

/-! ## Claim C10: bounded browser-context pool

The transition system embeds the concurrency discipline of
BrowserManager.get_context: a task acquires the asyncio semaphore of
capacity max_contexts before creating a context (acquire is only enabled
while the free count is positive — a waiting task otherwise stays
suspended), the context is closed and the slot released on every exit path
of the async-with block (normal return, exception, cancellation of the
body), and a task cancelled while still waiting never held a slot. -/

inductive TaskPhase
  | waiting
  | holding
  | finished
deriving DecidableEq

structure PoolState where
  capacity : ℕ
  free : ℕ
  tasks : List TaskPhase
deriving DecidableEq

/-- initPool: a fresh semaphore of the given capacity with n tasks all
suspended in acquire. -/
def initPool (capacity n : ℕ) : PoolState :=
  { capacity := capacity, free := capacity, tasks := List.replicate n .waiting }

def holdingCount (s : PoolState) : ℕ :=
  s.tasks.countP (fun t => decide (t = .holding))

inductive PoolStep : PoolState → PoolState → Prop
  | acquire (s : PoolState) (i : ℕ) (hi : s.tasks[i]? = some .waiting)
      (hfree : 0 < s.free) :
      PoolStep s (PoolState.mk s.capacity (s.free - 1) (s.tasks.set i .holding))
  | release (s : PoolState) (i : ℕ) (hi : s.tasks[i]? = some .holding) :
      PoolStep s (PoolState.mk s.capacity (s.free + 1) (s.tasks.set i .finished))
  | cancelWaiting (s : PoolState) (i : ℕ) (hi : s.tasks[i]? = some .waiting) :
      PoolStep s (PoolState.mk s.capacity s.free (s.tasks.set i .finished))

inductive PoolReachable (init : PoolState) : PoolState → Prop
  | refl : PoolReachable init init
  | step {s t : PoolState} : PoolReachable init s → PoolStep s t → PoolReachable init t

/-- poolAfterOneAcquire is the pool state reached from initPool 2 3 after a
single acquire step. -/
def poolAfterOneAcquire : PoolState :=
  PoolState.mk 2 1 [.holding, .waiting, .waiting]

/-! ## Lemmas and claim theorems -/

/-! ## Basic lemmas about the rhythm embedding -/

lemma intervalsOf_length (es : List RhythmEvent) :
    (intervalsOf es).length = es.length - 1 := by
  simp only [intervalsOf, List.length_map, List.length_zip, List.length_tail]
  exact Nat.min_eq_right (Nat.sub_le _ _)

lemma intervalsOf_ne_nil (es : List RhythmEvent) (h : 2 ≤ es.length) :
    intervalsOf es ≠ [] := by
  intro hnil
  have := intervalsOf_length es
  rw [hnil] at this
  simp at this
  omega

lemma sortEvents_nil : sortEvents [] = [] := rfl

lemma sortEvents_single (e : RhythmEvent) : sortEvents [e] = [e] := rfl

/-- Default lemma: fewer than two typing events yield the neutral 0.5. -/
lemma typingRhythmScore_default (es : List RhythmEvent)
    (h : (es.filter (isType "typing")).length < 2) : typingRhythmScore es = 0.5 := by
  rw [typingRhythmScore, if_pos h]

lemma scrollRhythmScore_default (es : List RhythmEvent)
    (h : (es.filter (isType "scroll")).length < 2) : scrollRhythmScore es = 0.5 := by
  rw [scrollRhythmScore, if_pos h]

lemma clickRhythmScore_default (es : List RhythmEvent)
    (h : (es.filter (isType "click")).length < 2) : clickRhythmScore es = 0.5 := by
  rw [clickRhythmScore, if_pos h]

lemma timingRhythmScore_default (es : List RhythmEvent)
    (h : es.length < 2) : timingRhythmScore es = 0.5 := by
  rw [timingRhythmScore, if_pos h]

lemma backtrackScore_default (ss : List RhythmEvent)
    (h : ss.length < 3) : backtrackScore ss = 0.5 := by
  rw [backtrackScore, if_pos h]

lemma single_filter_short (e : RhythmEvent) (t : String) (n : ℕ) (hn : 1 < n) :
    ([e].filter (isType t)).length < n :=
  lt_of_le_of_lt (List.length_filter_le _ _) hn

/-! ## Claim C8: degenerate inputs -/

/-- C8: on an empty event list calculate_rhythm_score returns 0 and
calculate_detection_risk returns 1; on a single-event list every category
sub-score takes its neutral default 0.5, the rhythm score is 0.5 and the
detection risk is 0.  All four values are defined and lie in [0, 1]; the
embedding is total, matching the guarded divisions of the Python source. -/
theorem degenerate_inputs_neutral (e : RhythmEvent) :
    calculateRhythmScore ([] : List RhythmEvent) = 0 ∧
    calculateDetectionRisk ([] : List RhythmEvent) = 1 ∧
    calculateRhythmScore [e] = 0.5 ∧
    calculateDetectionRisk [e] = 0 ∧
    typingRhythmScore [e] = 0.5 ∧
    scrollRhythmScore [e] = 0.5 ∧
    clickRhythmScore [e] = 0.5 ∧
    timingRhythmScore [e] = 0.5 ∧
    (0 : ℝ) ≤ calculateRhythmScore [] ∧ calculateRhythmScore [] ≤ 1 ∧
    (0 : ℝ) ≤ calculateDetectionRisk [] ∧ calculateDetectionRisk [] ≤ 1 := by
  have hty : typingRhythmScore [e] = 0.5 :=
    typingRhythmScore_default _ (single_filter_short e _ 2 one_lt_two)
  have hsc : scrollRhythmScore [e] = 0.5 :=
    scrollRhythmScore_default _ (single_filter_short e _ 2 one_lt_two)
  have hcl : clickRhythmScore [e] = 0.5 :=
    clickRhythmScore_default _ (single_filter_short e _ 2 one_lt_two)
  have hti : timingRhythmScore [e] = 0.5 := timingRhythmScore_default _ (by simp)
  have hscore : calculateRhythmScore [e] = 0.5 := by
    rw [calculateRhythmScore, if_neg (by simp)]
    show min 1 (max 0 (typingRhythmScore [e] * 0.3 + scrollRhythmScore [e] * 0.3 +
      clickRhythmScore [e] * 0.2 + timingRhythmScore [e] * 0.2)) = 0.5
    rw [hty, hsc, hcl, hti]
    norm_num
  have hrisk : calculateDetectionRisk [e] = 0 := by
    rw [calculateDetectionRisk, if_neg (by simp)]
    show min 1 (max 0 ((detectTooFastActions [e] + detectTooRegularPatterns [e] +
      detectNoPauses [e] + detectPerfectAccuracy [e] + detectUnrealisticTiming [e]) / 5)) = 0
    rw [detectTooFastActions, if_pos (by simp), detectTooRegularPatterns,
      if_pos (by simp), detectNoPauses, if_pos (by simp), detectPerfectAccuracy,
      if_pos (single_filter_short e _ 5 (by norm_num)), detectUnrealisticTiming,
      if_pos (by simp)]
    norm_num
  have hs0 : calculateRhythmScore ([] : List RhythmEvent) = 0 := by
    rw [calculateRhythmScore, if_pos rfl]
  have hr1 : calculateDetectionRisk ([] : List RhythmEvent) = 1 := by
    rw [calculateDetectionRisk, if_pos rfl]
  exact ⟨hs0, hr1, hscore, hrisk, hty, hsc, hcl, hti, by rw [hs0], by rw [hs0]; norm_num,
    by rw [hr1]; norm_num, by rw [hr1]⟩

/-! ## Claim C3: weighted-average structure of the rhythm score -/

/-- C3: for every non-empty event list the rhythm score equals the clamped
weighted sum of the four category sub-scores with weights typing 0.3,
scroll 0.3, click 0.2 and global timing 0.2, and each sub-score collapses to
the neutral 0.5 whenever its category has fewer than 2 qualifying events
(fewer than 3 for the scroll back-track sub-component). -/
theorem rhythm_score_weighted_average (events : List RhythmEvent)
    (h : events ≠ []) :
    calculateRhythmScore events =
      min 1 (max 0 (typingRhythmScore (sortEvents events) * 0.3 +
        scrollRhythmScore (sortEvents events) * 0.3 +
        clickRhythmScore (sortEvents events) * 0.2 +
        timingRhythmScore (sortEvents events) * 0.2)) ∧
    typingRhythmScore (sortEvents events) =
      (if ((sortEvents events).filter (isType "typing")).length < 2 then 0.5
       else typingRhythmScore (sortEvents events)) ∧
    scrollRhythmScore (sortEvents events) =
      (if ((sortEvents events).filter (isType "scroll")).length < 2 then 0.5
       else scrollRhythmScore (sortEvents events)) ∧
    clickRhythmScore (sortEvents events) =
      (if ((sortEvents events).filter (isType "click")).length < 2 then 0.5
       else clickRhythmScore (sortEvents events)) ∧
    timingRhythmScore (sortEvents events) =
      (if (sortEvents events).length < 2 then 0.5
       else timingRhythmScore (sortEvents events)) ∧
    backtrackScore ((sortEvents events).filter (isType "scroll")) =
      (if ((sortEvents events).filter (isType "scroll")).length < 3 then 0.5
       else backtrackScore ((sortEvents events).filter (isType "scroll"))) := by
  refine ⟨by rw [calculateRhythmScore, if_neg h], ?_, ?_, ?_, ?_, ?_⟩
  · by_cases hc : ((sortEvents events).filter (isType "typing")).length < 2
    · rw [if_pos hc, typingRhythmScore_default _ hc]
    · rw [if_neg hc]
  · by_cases hc : ((sortEvents events).filter (isType "scroll")).length < 2
    · rw [if_pos hc, scrollRhythmScore_default _ hc]
    · rw [if_neg hc]
  · by_cases hc : ((sortEvents events).filter (isType "click")).length < 2
    · rw [if_pos hc, clickRhythmScore_default _ hc]
    · rw [if_neg hc]
  · by_cases hc : (sortEvents events).length < 2
    · rw [if_pos hc, timingRhythmScore_default _ hc]
    · rw [if_neg hc]
  · by_cases hc : ((sortEvents events).filter (isType "scroll")).length < 3
    · rw [if_pos hc, backtrackScore_default _ hc]
    · rw [if_neg hc]

/-- C3 witness: the weighted-average identity instantiated on the concrete
one-event list [evC]. -/
theorem rhythm_score_weighted_average_witness :
    ([evC] ≠ ([] : List RhythmEvent)) ∧
    calculateRhythmScore [evC] =
      min 1 (max 0 (typingRhythmScore (sortEvents [evC]) * 0.3 +
        scrollRhythmScore (sortEvents [evC]) * 0.3 +
        clickRhythmScore (sortEvents [evC]) * 0.2 +
        timingRhythmScore (sortEvents [evC]) * 0.2)) :=
  ⟨by decide, (rhythm_score_weighted_average [evC] (by decide)).1⟩

lemma detectTooFastActions_eq_claimed (es : List RhythmEvent) :
    detectTooFastActions es = tooFastClaimed es := by
  rw [detectTooFastActions, tooFastClaimed]
  by_cases h : es.length < 2
  · rw [if_pos h, if_pos h]
  · rw [if_neg h, if_neg h, if_neg (intervalsOf_ne_nil es (by omega)), tooFastDescribed]

lemma detectTooRegularPatterns_eq_claimed (es : List RhythmEvent) :
    detectTooRegularPatterns es = tooRegularClaimed es := by
  rw [detectTooRegularPatterns, tooRegularClaimed]
  by_cases h : es.length < 3
  · rw [if_pos h, if_pos h]
  · rw [if_neg h, if_neg h, if_neg (intervalsOf_ne_nil es (by omega)), tooRegularDescribed]

lemma detectNoPauses_eq_claimed (es : List RhythmEvent) :
    detectNoPauses es = noPausesClaimed es := by
  rw [detectNoPauses, noPausesClaimed]
  by_cases h : es.length < 2
  · rw [if_pos h, if_pos h]
  · rw [if_neg h, if_neg h, if_neg (intervalsOf_ne_nil es (by omega)), noPausesDescribed]

lemma detectPerfectAccuracy_eq_claimed (es : List RhythmEvent) :
    detectPerfectAccuracy es = perfectAccuracyDescribed es := rfl

lemma detectUnrealisticTiming_eq_claimed (es : List RhythmEvent) :
    detectUnrealisticTiming es = unrealisticClaimed es := by
  rw [detectUnrealisticTiming, unrealisticClaimed]
  by_cases h : es.length < 2
  · rw [if_pos h, if_pos h]
  · rw [if_neg h, if_neg h, if_neg (intervalsOf_ne_nil es (by omega)), unrealisticDescribed]

/-! Bounds for the five detectors. -/

lemma coefficientOfVariation_nonneg (l : List ℚ) : 0 ≤ coefficientOfVariation l := by
  rw [coefficientOfVariation]
  by_cases h : 0 < listMean l
  · simp only [if_pos h]
    exact div_nonneg (Real.sqrt_nonneg _) (by exact_mod_cast h.le)
  · simp [if_neg h]

lemma natCastDiv_nonneg (a b : ℕ) : (0 : ℚ) ≤ (a : ℚ) / (b : ℚ) :=
  div_nonneg (by positivity) (by positivity)

lemma pauseFrac_nonneg (l : List ℚ) : 0 ≤ pauseFrac l := natCastDiv_nonneg _ _

lemma min_one_mem_unit {x : ℝ} (hx : 0 ≤ x) : 0 ≤ min 1 x ∧ min 1 x ≤ 1 :=
  ⟨le_min (by norm_num) hx, min_le_left _ _⟩

lemma max_zero_mem_unit {x : ℝ} (hx : x ≤ 1) : 0 ≤ max 0 x ∧ max 0 x ≤ 1 :=
  ⟨le_max_left _ _, max_le (by norm_num) hx⟩

lemma detectTooFastActions_mem_unit (es : List RhythmEvent) :
    0 ≤ detectTooFastActions es ∧ detectTooFastActions es ≤ 1 := by
  rw [detectTooFastActions]
  split
  · norm_num
  · dsimp only
    split
    · norm_num
    · exact min_one_mem_unit (by positivity)

lemma detectTooRegularPatterns_mem_unit (es : List RhythmEvent) :
    0 ≤ detectTooRegularPatterns es ∧ detectTooRegularPatterns es ≤ 1 := by
  rw [detectTooRegularPatterns]
  split
  · norm_num
  · dsimp only
    split
    · norm_num
    · refine max_zero_mem_unit ?_
      have := coefficientOfVariation_nonneg (intervalsOf es)
      have : 0 ≤ coefficientOfVariation (intervalsOf es) / 0.1 := by positivity
      linarith

lemma detectNoPauses_mem_unit (es : List RhythmEvent) :
    0 ≤ detectNoPauses es ∧ detectNoPauses es ≤ 1 := by
  rw [detectNoPauses]
  split
  · norm_num
  · dsimp only
    split
    · norm_num
    · refine max_zero_mem_unit ?_
      have h := pauseFrac_nonneg (intervalsOf es)
      have : 0 ≤ (pauseFrac (intervalsOf es) : ℝ) / 0.2 := by
        have : (0 : ℝ) ≤ (pauseFrac (intervalsOf es) : ℝ) := by exact_mod_cast h
        positivity
      linarith

lemma detectPerfectAccuracy_mem_unit (es : List RhythmEvent) :
    0 ≤ detectPerfectAccuracy es ∧ detectPerfectAccuracy es ≤ 1 := by
  rw [detectPerfectAccuracy]
  split
  · norm_num
  · refine max_zero_mem_unit ?_
    have h := natCastDiv_nonneg ((es.filter (isType "typing")).countP (·.hasError))
      (es.filter (isType "typing")).length
    have : (0 : ℝ) ≤ ((((es.filter (isType "typing")).countP (·.hasError) : ℚ) /
        ((es.filter (isType "typing")).length : ℚ) : ℚ) : ℝ) / 0.02 := by
      have : (0 : ℝ) ≤ ((((es.filter (isType "typing")).countP (·.hasError) : ℚ) /
          ((es.filter (isType "typing")).length : ℚ) : ℚ) : ℝ) := by exact_mod_cast h
      positivity
    linarith

lemma detectUnrealisticTiming_mem_unit (es : List RhythmEvent) :
    0 ≤ detectUnrealisticTiming es ∧ detectUnrealisticTiming es ≤ 1 := by
  rw [detectUnrealisticTiming]
  split
  · norm_num
  · dsimp only
    split
    · norm_num
    · exact min_one_mem_unit (by positivity)

/-- C2, amended: for every non-empty event list, calculate_detection_risk
equals the clamped unweighted mean of the five indicators as described by the
spec with the event-count guards made explicit (too-regular needs at least 3
events, the other interval indicators at least 2, perfect accuracy at least 5
typing events), each detector lies in [0,1], and the result lies in [0,1]. -/
theorem detection_risk_mean_of_five (events : List RhythmEvent)
    (h : events ≠ []) :
    calculateDetectionRisk events = detectionRiskClaimed events ∧
    (0 ≤ detectTooFastActions (sortEvents events) ∧
      detectTooFastActions (sortEvents events) ≤ 1) ∧
    (0 ≤ detectTooRegularPatterns (sortEvents events) ∧
      detectTooRegularPatterns (sortEvents events) ≤ 1) ∧
    (0 ≤ detectNoPauses (sortEvents events) ∧ detectNoPauses (sortEvents events) ≤ 1) ∧
    (0 ≤ detectPerfectAccuracy (sortEvents events) ∧
      detectPerfectAccuracy (sortEvents events) ≤ 1) ∧
    (0 ≤ detectUnrealisticTiming (sortEvents events) ∧
      detectUnrealisticTiming (sortEvents events) ≤ 1) ∧
    0 ≤ calculateDetectionRisk events ∧ calculateDetectionRisk events ≤ 1 := by
  have heq : calculateDetectionRisk events = detectionRiskClaimed events := by
    rw [calculateDetectionRisk, if_neg h, detectionRiskClaimed,
      detectTooFastActions_eq_claimed, detectTooRegularPatterns_eq_claimed,
      detectNoPauses_eq_claimed, detectPerfectAccuracy_eq_claimed,
      detectUnrealisticTiming_eq_claimed]
  refine ⟨heq, detectTooFastActions_mem_unit _, detectTooRegularPatterns_mem_unit _,
    detectNoPauses_mem_unit _, detectPerfectAccuracy_mem_unit _,
    detectUnrealisticTiming_mem_unit _, ?_, ?_⟩
  · rw [calculateDetectionRisk, if_neg h]
    exact le_min (by norm_num) (le_max_left _ _)
  · rw [calculateDetectionRisk, if_neg h]
    exact min_le_left _ _

/-- C2 witness: the amended identity instantiated on the one-event list. -/
theorem detection_risk_mean_of_five_witness :
    ([evC] ≠ ([] : List RhythmEvent)) ∧
    calculateDetectionRisk [evC] = detectionRiskClaimed [evC] :=
  ⟨by decide, (detection_risk_mean_of_five [evC] (by decide)).1⟩

lemma sortEvents_evT : sortEvents [evT0, evT2] = [evT0, evT2] := by decide

lemma intervalsOf_evT : intervalsOf [evT0, evT2] = [2000] := by
  norm_num [intervalsOf, evT0, evT2]

lemma listMean_single2000 : listMean [(2000 : ℚ)] = 2000 := by
  norm_num [listMean]

lemma cv_single2000 : coefficientOfVariation [(2000 : ℚ)] = 0 := by
  norm_num [coefficientOfVariation, listMean]

lemma detectTooFastActions_evT : detectTooFastActions [evT0, evT2] = 0 := by
  rw [detectTooFastActions, if_neg (by norm_num)]
  dsimp only
  rw [intervalsOf_evT, if_neg (by simp)]
  norm_num [List.countP, List.countP.go]

lemma detectTooRegularPatterns_evT : detectTooRegularPatterns [evT0, evT2] = 0 := by
  rw [detectTooRegularPatterns, if_pos (by norm_num)]

lemma detectNoPauses_evT : detectNoPauses [evT0, evT2] = 0 := by
  rw [detectNoPauses, if_neg (by norm_num)]
  dsimp only
  rw [intervalsOf_evT, if_neg (by simp)]
  have h : pauseFrac [(2000 : ℚ)] = 1 := by
    norm_num [pauseFrac, List.countP, List.countP.go]
  rw [h]
  norm_num

lemma detectPerfectAccuracy_evT : detectPerfectAccuracy [evT0, evT2] = 0 := by
  rw [detectPerfectAccuracy]
  have h : (([evT0, evT2].filter (isType "typing")).length < 5) := by decide
  rw [if_pos h]

lemma detectUnrealisticTiming_evT : detectUnrealisticTiming [evT0, evT2] = 0 := by
  rw [detectUnrealisticTiming, if_neg (by norm_num)]
  dsimp only
  rw [intervalsOf_evT, if_neg (by simp)]
  norm_num [List.countP, List.countP.go]

lemma tooRegularDescribed_evT : tooRegularDescribed [evT0, evT2] = 1 := by
  rw [tooRegularDescribed, intervalsOf_evT, cv_single2000]
  norm_num

/-- C2 counterexample: on the two-click list with one 2000 ms interval,
calculate_detection_risk returns 0, while the claim as stated (the mean of
the five indicators as described, whose too-regular component is
1 - CV/0.1 floored at 0 with no three-event guard) yields 1/5.  The source
guards the too-regular detector behind a three-event minimum that the claim
omits. -/
theorem detection_risk_as_stated_counterexample :
    calculateDetectionRisk [evT0, evT2] = 0 ∧
    detectionRiskDescribed [evT0, evT2] = 1 / 5 ∧
    calculateDetectionRisk [evT0, evT2] ≠ detectionRiskDescribed [evT0, evT2] := by
  have hsrc : calculateDetectionRisk [evT0, evT2] = 0 := by
    rw [calculateDetectionRisk, if_neg (by decide), sortEvents_evT,
      detectTooFastActions_evT, detectTooRegularPatterns_evT, detectNoPauses_evT,
      detectPerfectAccuracy_evT, detectUnrealisticTiming_evT]
    norm_num
  have htf : tooFastDescribed [evT0, evT2] = 0 := by
    have h := detectTooFastActions_eq_claimed [evT0, evT2]
    rw [detectTooFastActions_evT, tooFastClaimed, if_neg (by norm_num)] at h
    exact h.symm
  have hnp : noPausesDescribed [evT0, evT2] = 0 := by
    have h := detectNoPauses_eq_claimed [evT0, evT2]
    rw [detectNoPauses_evT, noPausesClaimed, if_neg (by norm_num)] at h
    exact h.symm
  have hun : unrealisticDescribed [evT0, evT2] = 0 := by
    have h := detectUnrealisticTiming_eq_claimed [evT0, evT2]
    rw [detectUnrealisticTiming_evT, unrealisticClaimed, if_neg (by norm_num)] at h
    exact h.symm
  have hpa : perfectAccuracyDescribed [evT0, evT2] = 0 := by
    rw [← detectPerfectAccuracy_eq_claimed]
    exact detectPerfectAccuracy_evT
  have hdesc : detectionRiskDescribed [evT0, evT2] = 1 / 5 := by
    rw [detectionRiskDescribed, sortEvents_evT, htf, tooRegularDescribed_evT, hnp,
      hpa, hun]
    norm_num
  exact ⟨hsrc, hdesc, by rw [hsrc, hdesc]; norm_num⟩

/-! ## Claim C1: constant-interval versus varied-interval rhythm scores -/

lemma insertByTime_of_le (e : RhythmEvent) (l : List RhythmEvent)
    (h : ∀ y ∈ l.head?, e.timestamp ≤ y.timestamp) : insertByTime e l = e :: l := by
  cases l with
  | nil => rfl
  | cons x xs => rw [insertByTime, if_pos (h x rfl)]

/-- sortEvents leaves an already time-sorted list unchanged. -/
lemma sortEvents_eq_of_sorted (l : List RhythmEvent)
    (h : List.Chain' (fun a b => a.timestamp ≤ b.timestamp) l) : sortEvents l = l := by
  induction l with
  | nil => rfl
  | cons e es ih =>
    rw [List.chain'_cons'] at h
    rw [sortEvents, ih h.2, insertByTime_of_le e es h.1]

/-- Filtering a list of single-typed events for a different type is empty. -/
lemma filter_isType_eq_nil (l : List RhythmEvent) (t t' : String)
    (hne : t' ≠ t) (h : l.filter (isType t) = l) : l.filter (isType t') = [] := by
  rw [List.filter_eq_nil_iff]
  intro a ha
  have ht : isType t a = true := List.filter_eq_self.mp h a ha
  simp only [isType, decide_eq_true_eq] at ht ⊢
  rw [ht]
  exact fun hh => hne hh.symm

lemma listMean_replicate (n : ℕ) (hn : n ≠ 0) (d : ℚ) :
    listMean (List.replicate n d) = d := by
  rw [listMean, List.sum_replicate n d, List.length_replicate, nsmul_eq_mul]
  have : (n : ℚ) ≠ 0 := Nat.cast_ne_zero.mpr hn
  field_simp

lemma sampleVariance_replicate (n : ℕ) (d : ℚ) :
    sampleVariance (List.replicate n d) = 0 := by
  rcases Nat.eq_zero_or_pos n with h | h
  · subst h
    simp [sampleVariance]
  · rw [sampleVariance, listMean_replicate n (Nat.pos_iff_ne_zero.mp h) d]
    rw [List.map_replicate]
    simp

lemma coefficientOfVariation_replicate (n : ℕ) (d : ℚ) (hn : n ≠ 0) (hd : 0 < d) :
    coefficientOfVariation (List.replicate n d) = 0 := by
  rw [coefficientOfVariation]
  rw [listMean_replicate n hn d, if_pos hd, List.length_replicate,
    sampleVariance_replicate n d, ite_self]
  simp

lemma varianceScore_replicate (n : ℕ) (d : ℚ) (θ : ℝ) (hn : n ≠ 0) (hd : 0 < d) :
    varianceScore (List.replicate n d) θ = 0 := by
  rw [varianceScore, coefficientOfVariation_replicate n d hn hd, zero_div]
  exact min_eq_right zero_le_one

lemma varianceScore_nonneg (l : List ℚ) (θ : ℝ) (hθ : 0 < θ) :
    0 ≤ varianceScore l θ :=
  le_min zero_le_one (div_nonneg (coefficientOfVariation_nonneg l) hθ.le)

lemma varianceScore_le_one (l : List ℚ) (θ : ℝ) : varianceScore l θ ≤ 1 :=
  min_le_left _ _

/-- pauseScore vanishes when no interval exceeds 1000 ms. -/
lemma pauseScore_eq_zero (l : List ℚ) (h : ∀ x ∈ l, x ≤ 1000) : pauseScore l = 0 := by
  rw [pauseScore]
  by_cases hl : l = []
  · rw [if_pos hl]
  · rw [if_neg hl]
    have hc : l.countP (fun x => decide (1000 < x)) = 0 :=
      List.countP_eq_zero.mpr fun a ha => by
        simp only [decide_eq_true_eq]
        exact not_lt.mpr (h a ha)
    rw [pauseFrac, hc]
    norm_num

lemma pauseScore_nonneg (l : List ℚ) : 0 ≤ pauseScore l := by
  rw [pauseScore]
  split
  · norm_num
  · refine le_min zero_le_one ?_
    have h := pauseFrac_nonneg l
    have : (0 : ℝ) ≤ (pauseFrac l : ℝ) := by exact_mod_cast h
    positivity

/-- doubleClickScore vanishes when every click interval is at least 500 ms. -/
lemma doubleClickScore_eq_zero (l : List RhythmEvent) (h2 : ¬l.length < 2)
    (h : ∀ x ∈ intervalsOf l, 500 ≤ x) : doubleClickScore l = 0 := by
  rw [doubleClickScore, if_neg h2]
  have hc : (intervalsOf l).countP (fun x => decide (x < 500)) = 0 :=
    List.countP_eq_zero.mpr fun a ha => by
      simp only [decide_eq_true_eq]
      exact not_lt.mpr (h a ha)
  rw [hc]
  norm_num

/-- clickRhythmScore unfolds to its three-part average on all-click lists of
at least two events. -/
lemma clickRhythmScore_formula (l : List RhythmEvent)
    (hfl : l.filter (isType "click") = l) (h2 : 2 ≤ l.length) :
    clickRhythmScore l = (varianceScore (intervalsOf l) 0.3 +
      pauseScore (intervalsOf l) + doubleClickScore l) / 3 := by
  rw [clickRhythmScore, hfl, if_neg (by omega), if_neg (intervalsOf_ne_nil l h2)]

lemma timingRhythmScore_formula (l : List RhythmEvent) (h2 : 2 ≤ l.length) :
    timingRhythmScore l = (varianceScore (intervalsOf l) 0.5 +
      pauseScore (intervalsOf l)) / 2 := by
  rw [timingRhythmScore, if_neg (by omega), if_neg (intervalsOf_ne_nil l h2)]

/-- C1, amended: consider two equal-length all-click event lists of at least
two time-sorted events whose inter-event intervals all lie in the neutral
band [500 ms, 1000 ms] (so neither list triggers the pause or double-click
sub-scores).  If the first list has constant intervals (zero variance), its
rhythm score is no higher than the score of the second, arbitrarily varied,
list.  The band restriction is forced by the counterexample: outside it a
constant-interval list can outscore a varied one through the pause and
double-click sub-scores. -/
theorem rhythm_score_constant_le_varied_inband (c v : List RhythmEvent) (d : ℚ)
    (hc2 : 2 ≤ c.length) (hlen : v.length = c.length)
    (hct : c.filter (isType "click") = c) (hvt : v.filter (isType "click") = v)
    (hcs : List.Chain' (fun a b => a.timestamp ≤ b.timestamp) c)
    (hvs : List.Chain' (fun a b => a.timestamp ≤ b.timestamp) v)
    (hd1 : 500 ≤ d) (hd2 : d ≤ 1000)
    (hconst : intervalsOf c = List.replicate (c.length - 1) d)
    (hband : ∀ x ∈ intervalsOf v, 500 ≤ x ∧ x ≤ 1000) :
    calculateRhythmScore c ≤ calculateRhythmScore v := by
  have hv2 : 2 ≤ v.length := hlen ▸ hc2
  have hcne : c ≠ [] := by intro h; rw [h] at hc2; simp at hc2
  have hvne : v ≠ [] := by intro h; rw [h] at hv2; simp at hv2
  have hd0 : 0 < d := lt_of_lt_of_le (by norm_num) hd1
  have hn1 : c.length - 1 ≠ 0 := by omega
  -- the constant list scores exactly 0.3
  have hty_c : typingRhythmScore c = 0.5 :=
    typingRhythmScore_default c (by rw [filter_isType_eq_nil c "click" "typing" (by decide) hct]; norm_num)
  have hsc_c : scrollRhythmScore c = 0.5 :=
    scrollRhythmScore_default c (by rw [filter_isType_eq_nil c "click" "scroll" (by decide) hct]; norm_num)
  have hcl_c : clickRhythmScore c = 0 := by
    rw [clickRhythmScore_formula c hct hc2, hconst,
      varianceScore_replicate _ d 0.3 hn1 hd0,
      pauseScore_eq_zero _ (fun x hx => (List.eq_of_mem_replicate hx) ▸ hd2),
      doubleClickScore_eq_zero c (by omega)
        (fun x hx => by rw [hconst] at hx; exact (List.eq_of_mem_replicate hx) ▸ hd1)]
    norm_num
  have hti_c : timingRhythmScore c = 0 := by
    rw [timingRhythmScore_formula c hc2, hconst,
      varianceScore_replicate _ d 0.5 hn1 hd0,
      pauseScore_eq_zero _ (fun x hx => (List.eq_of_mem_replicate hx) ▸ hd2)]
    norm_num
  have hscore_c : calculateRhythmScore c = 0.3 := by
    rw [calculateRhythmScore, if_neg hcne, sortEvents_eq_of_sorted c hcs,
      hty_c, hsc_c, hcl_c, hti_c]
    rw [show (0.5 * 0.3 + 0.5 * 0.3 + 0 * 0.2 + 0 * 0.2 : ℝ) = 0.3 by norm_num,
      max_eq_right (by norm_num), min_eq_right (by norm_num)]
  -- the varied list scores at least 0.3
  have hty_v : typingRhythmScore v = 0.5 :=
    typingRhythmScore_default v (by rw [filter_isType_eq_nil v "click" "typing" (by decide) hvt]; norm_num)
  have hsc_v : scrollRhythmScore v = 0.5 :=
    scrollRhythmScore_default v (by rw [filter_isType_eq_nil v "click" "scroll" (by decide) hvt]; norm_num)
  have hcl_v : clickRhythmScore v = (varianceScore (intervalsOf v) 0.3 + 0 + 0) / 3 := by
    rw [clickRhythmScore_formula v hvt hv2,
      pauseScore_eq_zero _ (fun x hx => (hband x hx).2),
      doubleClickScore_eq_zero v (by omega) (fun x hx => (hband x hx).1)]
  have hti_v : timingRhythmScore v = (varianceScore (intervalsOf v) 0.5 + 0) / 2 := by
    rw [timingRhythmScore_formula v hv2,
      pauseScore_eq_zero _ (fun x hx => (hband x hx).2)]
  have ha0 : 0 ≤ varianceScore (intervalsOf v) 0.3 := varianceScore_nonneg _ _ (by norm_num)
  have ha1 : varianceScore (intervalsOf v) 0.3 ≤ 1 := varianceScore_le_one _ _
  have hb0 : 0 ≤ varianceScore (intervalsOf v) 0.5 := varianceScore_nonneg _ _ (by norm_num)
  have hb1 : varianceScore (intervalsOf v) 0.5 ≤ 1 := varianceScore_le_one _ _
  have hscore_v : calculateRhythmScore v =
      0.5 * 0.3 + 0.5 * 0.3 + ((varianceScore (intervalsOf v) 0.3 + 0 + 0) / 3) * 0.2 +
        ((varianceScore (intervalsOf v) 0.5 + 0) / 2) * 0.2 := by
    rw [calculateRhythmScore, if_neg hvne, sortEvents_eq_of_sorted v hvs,
      hty_v, hsc_v, hcl_v, hti_v, max_eq_right (by linarith), min_eq_right (by linarith)]
  rw [hscore_c, hscore_v]
  linarith

/-- C1 witness: the amended comparison applied to the concrete pair cW, vW
with constant interval 600 ms. -/
theorem rhythm_score_constant_le_varied_inband_witness :
    2 ≤ cW.length ∧ calculateRhythmScore cW ≤ calculateRhythmScore vW := by
  have hic : intervalsOf cW = List.replicate (cW.length - 1) 600 := by
    norm_num [intervalsOf, cW, List.replicate]
  have hiv : intervalsOf vW = [700] := by
    norm_num [intervalsOf, vW]
  refine ⟨by norm_num [cW], ?_⟩
  refine rhythm_score_constant_le_varied_inband cW vW 600 (by norm_num [cW])
    (by norm_num [cW, vW]) (by simp [cW, isType]) (by simp [vW, isType])
    (by simp [cW, List.chain'_cons]; norm_num) (by simp [vW, List.chain'_cons]; norm_num)
    (by norm_num) (by norm_num) hic ?_
  rw [hiv]
  intro x hx
  rw [List.mem_singleton] at hx
  subst hx
  norm_num

lemma intervalsOf_constClicks : intervalsOf constClicks = [2000, 2000] := by
  norm_num [intervalsOf, constClicks]

lemma intervalsOf_variedClicks : intervalsOf variedClicks = [600, 800] := by
  norm_num [intervalsOf, variedClicks]

lemma filter_click_constClicks : constClicks.filter (isType "click") = constClicks := by
  simp [constClicks, isType]

lemma filter_click_variedClicks : variedClicks.filter (isType "click") = variedClicks := by
  simp [variedClicks, isType]

lemma pauseScore_2000 : pauseScore [(2000 : ℚ), 2000] = 1 := by
  rw [pauseScore, if_neg (by simp)]
  have hf : pauseFrac [(2000 : ℚ), 2000] = 1 := by
    norm_num [pauseFrac, List.countP_cons, List.countP_nil]
  rw [hf]
  rw [show ((1 : ℚ) : ℝ) / 0.2 = 5 by norm_num]
  exact min_eq_left (by norm_num)

lemma calculateRhythmScore_constClicks : calculateRhythmScore constClicks = 7 / 15 := by
  have hlen : constClicks.length = 3 := by norm_num [constClicks]
  have hsort : sortEvents constClicks = constClicks :=
    sortEvents_eq_of_sorted _ (by simp [constClicks, List.chain'_cons]; norm_num)
  have hty : typingRhythmScore constClicks = 0.5 :=
    typingRhythmScore_default _ (by
      rw [filter_isType_eq_nil constClicks "click" "typing" (by decide) filter_click_constClicks]
      norm_num)
  have hsc : scrollRhythmScore constClicks = 0.5 :=
    scrollRhythmScore_default _ (by
      rw [filter_isType_eq_nil constClicks "click" "scroll" (by decide) filter_click_constClicks]
      norm_num)
  have hvs3 : varianceScore [(2000 : ℚ), 2000] 0.3 = 0 := by
    rw [show [(2000 : ℚ), 2000] = List.replicate 2 2000 from rfl]
    exact varianceScore_replicate 2 2000 0.3 (by norm_num) (by norm_num)
  have hvs5 : varianceScore [(2000 : ℚ), 2000] 0.5 = 0 := by
    rw [show [(2000 : ℚ), 2000] = List.replicate 2 2000 from rfl]
    exact varianceScore_replicate 2 2000 0.5 (by norm_num) (by norm_num)
  have hdc : doubleClickScore constClicks = 0 :=
    doubleClickScore_eq_zero constClicks (by omega) (fun x hx => by
      rw [intervalsOf_constClicks] at hx
      simp only [List.mem_cons, List.mem_singleton, List.not_mem_nil, or_false] at hx
      rcases hx with h | h
      all_goals rw [h]; norm_num)
  have hcl : clickRhythmScore constClicks = 1 / 3 := by
    rw [clickRhythmScore_formula constClicks filter_click_constClicks (by omega),
      intervalsOf_constClicks, hvs3, pauseScore_2000, hdc]
    norm_num
  have hti : timingRhythmScore constClicks = 1 / 2 := by
    rw [timingRhythmScore_formula constClicks (by omega), intervalsOf_constClicks,
      hvs5, pauseScore_2000]
    norm_num
  rw [calculateRhythmScore, if_neg (by simp [constClicks]), hsort, hty, hsc, hcl, hti]
  rw [show (0.5 * 0.3 + 0.5 * 0.3 + 1 / 3 * 0.2 + 1 / 2 * 0.2 : ℝ) = 7 / 15 by norm_num,
    max_eq_right (by norm_num), min_eq_right (by norm_num)]

lemma coefficientOfVariation_600_800 :
    coefficientOfVariation [(600 : ℚ), 800] = Real.sqrt 20000 / 700 := by
  have hm : listMean [(600 : ℚ), 800] = 700 := by norm_num [listMean]
  have hv : sampleVariance [(600 : ℚ), 800] = 20000 := by
    norm_num [sampleVariance, listMean]
  rw [coefficientOfVariation]
  rw [hm, if_pos (by norm_num : (0 : ℚ) < 700), if_pos (by norm_num), hv]
  norm_num

/-- C1 counterexample: the claim as stated is false.  constClicks has
constant 2000 ms intervals (zero variance) and the same event count and
types as variedClicks, whose 600/800 ms intervals are realistically varied
(sample variance 20000, coefficient of variation about 0.2), yet the
constant-interval list scores strictly higher (7/15 against at most 0.391),
because its long intervals saturate the pause sub-score. -/
theorem rhythm_score_constant_vs_varied_counterexample :
    intervalsOf constClicks = List.replicate 2 2000 ∧
    sampleVariance (intervalsOf variedClicks) = 20000 ∧
    constClicks.length = variedClicks.length ∧
    constClicks.filter (isType "click") = constClicks ∧
    variedClicks.filter (isType "click") = variedClicks ∧
    calculateRhythmScore variedClicks < calculateRhythmScore constClicks := by
  refine ⟨intervalsOf_constClicks, ?_, by norm_num [constClicks, variedClicks],
    filter_click_constClicks, filter_click_variedClicks, ?_⟩
  · rw [intervalsOf_variedClicks]
    norm_num [sampleVariance, listMean]
  have hband : ∀ x ∈ intervalsOf variedClicks, 500 ≤ x ∧ x ≤ 1000 := by
    rw [intervalsOf_variedClicks]
    intro x hx
    simp only [List.mem_cons, List.mem_singleton, List.not_mem_nil, or_false] at hx
    rcases hx with h | h
    all_goals rw [h]; norm_num
  have hsort : sortEvents variedClicks = variedClicks :=
    sortEvents_eq_of_sorted _ (by simp [variedClicks, List.chain'_cons]; norm_num)
  have hty : typingRhythmScore variedClicks = 0.5 :=
    typingRhythmScore_default _ (by
      rw [filter_isType_eq_nil variedClicks "click" "typing" (by decide) filter_click_variedClicks]
      norm_num)
  have hsc : scrollRhythmScore variedClicks = 0.5 :=
    scrollRhythmScore_default _ (by
      rw [filter_isType_eq_nil variedClicks "click" "scroll" (by decide) filter_click_variedClicks]
      norm_num)
  have hlen3 : variedClicks.length = 3 := by norm_num [variedClicks]
  have hcl : clickRhythmScore variedClicks =
      (varianceScore [(600 : ℚ), 800] 0.3 + 0 + 0) / 3 := by
    rw [clickRhythmScore_formula variedClicks filter_click_variedClicks (by omega),
      intervalsOf_variedClicks,
      pauseScore_eq_zero _ (fun x hx => by
        have := hband x (by rw [intervalsOf_variedClicks]; exact hx)
        exact this.2),
      doubleClickScore_eq_zero variedClicks (by omega) (fun x hx => (hband x hx).1)]
  have hti : timingRhythmScore variedClicks =
      (varianceScore [(600 : ℚ), 800] 0.5 + 0) / 2 := by
    rw [timingRhythmScore_formula variedClicks (by omega), intervalsOf_variedClicks,
      pauseScore_eq_zero _ (fun x hx => by
        have := hband x (by rw [intervalsOf_variedClicks]; exact hx)
        exact this.2)]
  have ha0 : 0 ≤ varianceScore [(600 : ℚ), 800] 0.3 := varianceScore_nonneg _ _ (by norm_num)
  have hb0 : 0 ≤ varianceScore [(600 : ℚ), 800] 0.5 := varianceScore_nonneg _ _ (by norm_num)
  have hs0 : 0 ≤ Real.sqrt 2 := Real.sqrt_nonneg 2
  have hs2 : Real.sqrt 2 < 1.5 := (Real.sqrt_lt' (by norm_num)).mpr (by norm_num)
  have hsq : Real.sqrt 20000 = 100 * Real.sqrt 2 := by
    rw [show (20000 : ℝ) = 100 ^ 2 * 2 by norm_num, Real.sqrt_mul (by positivity) 2,
      Real.sqrt_sq (by norm_num)]
  have hcv : coefficientOfVariation [(600 : ℚ), 800] = 100 * Real.sqrt 2 / 700 := by
    rw [coefficientOfVariation_600_800, hsq]
  have ha1 : varianceScore [(600 : ℚ), 800] 0.3 ≤ 10 * Real.sqrt 2 / 21 := by
    rw [varianceScore, hcv]
    refine le_trans (min_le_right _ _) (le_of_eq ?_)
    ring
  have hb1 : varianceScore [(600 : ℚ), 800] 0.5 ≤ 2 * Real.sqrt 2 / 7 := by
    rw [varianceScore, hcv]
    refine le_trans (min_le_right _ _) (le_of_eq ?_)
    ring
  have hvscore : calculateRhythmScore variedClicks ≤
      0.5 * 0.3 + 0.5 * 0.3 + ((varianceScore [(600 : ℚ), 800] 0.3 + 0 + 0) / 3) * 0.2 +
        ((varianceScore [(600 : ℚ), 800] 0.5 + 0) / 2) * 0.2 := by
    rw [calculateRhythmScore, if_neg (by simp [variedClicks]), hsort, hty, hsc, hcl, hti,
      max_eq_right (by linarith)]
    exact min_le_right _ _
  rw [calculateRhythmScore_constClicks]
  linarith [hvscore, ha1, hb1, hs2, hs0]

/-- C4: starting succeeds exactly from pending or (idempotently) running,
pausing exactly from running, resuming exactly from paused; an
already-running campaign starts with a success report and no mutation, and
every rejected transition returns the state-conflict outcome with the
campaign record (status and all timestamp fields) unchanged. -/
theorem campaign_lifecycle_guards (now : ℕ) (c : CampaignState) :
    ((startCampaign now c).2 ≠ .stateConflict ↔
      (c.status = .pending ∨ c.status = .running)) ∧
    ((pauseCampaign now c).2 = .ok ↔ c.status = .running) ∧
    ((resumeCampaign now c).2 = .ok ↔ c.status = .paused) ∧
    (startCampaign now c).2 = (if c.status = .running then .alreadyRunning
      else if c.status = .pending then .ok else .stateConflict) ∧
    (startCampaign now c).1 = (if c.status = .pending then
      { c with status := .running, startedAt := some now, updatedAt := now } else c) ∧
    (pauseCampaign now c).1 = (if c.status = .running then
      { c with status := .paused, updatedAt := now } else c) ∧
    (resumeCampaign now c).1 = (if c.status = .paused then
      { c with status := .running, updatedAt := now } else c) := by
  rcases c with ⟨st, sa, ca, ua⟩
  cases st <;> simp [startCampaign, pauseCampaign, resumeCampaign]

/-- C5 evaluation: on cooperative cancellation the engine writes the status
string paused to the session row, and paused is not a member of the
session_status enum {pending, running, completed, failed, timeout}: the
write contradicts the schema of the very table it updates. -/
theorem session_cancel_writes_paused_outside_enum :
    runSimulationStatusWrites .cancelled = ["running", "paused"] ∧
    "paused" ∈ runSimulationStatusWrites .cancelled ∧
    "paused" ∉ sessionStatusEnum := by
  refine ⟨rfl, by simp [runSimulationStatusWrites], by simp [sessionStatusEnum]⟩

/-- C6 evaluation: a session that visits two pages records visit_order
values [1, 1] instead of the contiguous strictly increasing [1, 2]; the
duplicate violates uniqueness (and the uq_page_visits_session_order unique
constraint of migration 004). -/
theorem visit_order_duplicate_bug :
    recordedVisitOrders 2 = [1, 1] ∧
    ¬(recordedVisitOrders 2).Nodup ∧
    recordedVisitOrders 2 ≠ [1, 2] := by decide

/-- C7 counterexample: in the SimulationEngine path named by the claim, a
session whose very first navigation raises an exception, and likewise one
whose navigation returns HTTP 404, are both recorded with status completed
and no error message, not with status failed as the claim states. -/
theorem navigation_failure_engine_counterexample :
    navFails (.exn "net ERR_CONNECTION_REFUSED") = true ∧
    engineSessionRecord [.exn "net ERR_CONNECTION_REFUSED"] =
      { status := "completed", errorMessage := none, pagesVisited := 0 } ∧
    navFails (.ok 404) = true ∧
    engineSessionRecord [.ok 404] =
      { status := "completed", errorMessage := none, pagesVisited := 1 } ∧
    ("completed" : String) ≠ "failed" := by
  refine ⟨rfl, rfl, by decide, rfl, by decide⟩

/-- C7, amended: in the SimpleNavigationWorker execution path (the worker
that consumes simulation jobs and persists session rows), a navigation with
HTTP status at least 400 or a navigation exception is recorded as a session
with status failed and the error message stored, a successful navigation is
recorded completed with no error, and the processed job is removed from the
queue and never re-enqueued (no automatic retry). -/
theorem navigation_failure_simple_worker (nav : NavOutcome) (job : String)
    (queue : List String) :
    (simpleWorkerSessionRow nav).status =
      (if navFails nav then "failed" else "completed") ∧
    (simpleWorkerSessionRow nav).errorMessage =
      (if navFails nav then some (navErrorMsg nav) else none) ∧
    workerQueueAfter (job :: queue) = queue := by
  refine ⟨?_, ?_, rfl⟩ <;>
    cases nav with
    | ok s =>
      by_cases h : 400 ≤ s <;>
        simp [simpleWorkerSessionRow, runSessionSync, navFails, navErrorMsg, h]
    | exn m => simp [simpleWorkerSessionRow, runSessionSync, navFails, navErrorMsg]

/-- C9 counterexample: for a campaign whose concurrent_sessions field is 2
with five pending sessions, one dispatch pass enqueues all five jobs — the
per-pass bound is not the campaign field. -/
theorem dispatch_ignores_campaign_field_counterexample :
    narrowCampaign.concurrentSessions = 2 ∧
    narrowCampaign.concurrentSessions ≤ narrowCampaign.totalSessions ∧
    (processCampaignSessions fivePendingSessions narrowCampaign.campaignId).length = 5 ∧
    ¬((processCampaignSessions fivePendingSessions narrowCampaign.campaignId).length ≤
        narrowCampaign.concurrentSessions) := by decide

/-- C9, amended: each dispatch pass enqueues at most the fixed
orchestrator-level limit max_concurrent_sessions = 10 jobs, independent of
the concurrent_sessions field of the campaign, and every enqueued job comes
from a pending session of that campaign. -/
theorem dispatch_bounded_by_fixed_limit (db : List SessionRow) (cid : ℕ) :
    (processCampaignSessions db cid).length ≤ maxConcurrentSessions ∧
    processCampaignSessions db cid ⊆ (db.filter (isPendingFor cid)).map (·.sessionId) := by
  constructor
  · rw [processCampaignSessions, List.length_map]
    exact List.length_take_le _ _
  · exact List.map_subset _ (List.take_subset _ _)

lemma countP_set_addCancel {α : Type} (p : α → Bool) :
    ∀ (l : List α) (i : ℕ) (a b : α), l[i]? = some a →
      (l.set i b).countP p + (if p a then 1 else 0) =
        l.countP p + (if p b then 1 else 0)
  | [], i, a, b, h => by simp at h
  | x :: xs, 0, a, b, h => by
    simp only [List.getElem?_cons_zero, Option.some_inj] at h
    subst h
    simp only [List.set_cons_zero, List.countP_cons]
    omega
  | x :: xs, i + 1, a, b, h => by
    simp only [List.getElem?_cons_succ] at h
    have ih := countP_set_addCancel p xs i a b h
    simp only [List.set_cons_succ, List.countP_cons]
    omega

lemma countP_set_waiting_to_holding (l : List TaskPhase) (i : ℕ)
    (h : l[i]? = some .waiting) :
    (l.set i .holding).countP (fun t => decide (t = TaskPhase.holding)) =
      l.countP (fun t => decide (t = TaskPhase.holding)) + 1 := by
  simpa using countP_set_addCancel (fun t => decide (t = TaskPhase.holding)) l i
    .waiting .holding h

lemma countP_set_holding_to_finished (l : List TaskPhase) (i : ℕ)
    (h : l[i]? = some .holding) :
    (l.set i .finished).countP (fun t => decide (t = TaskPhase.holding)) + 1 =
      l.countP (fun t => decide (t = TaskPhase.holding)) := by
  simpa using countP_set_addCancel (fun t => decide (t = TaskPhase.holding)) l i
    .holding .finished h

lemma countP_set_waiting_to_finished (l : List TaskPhase) (i : ℕ)
    (h : l[i]? = some .waiting) :
    (l.set i .finished).countP (fun t => decide (t = TaskPhase.holding)) =
      l.countP (fun t => decide (t = TaskPhase.holding)) := by
  simpa using countP_set_addCancel (fun t => decide (t = TaskPhase.holding)) l i
    .waiting .finished h

lemma poolStep_invariant {capacity n : ℕ} {s t : PoolState}
    (hinv : s.capacity = capacity ∧ s.tasks.length = n ∧
      s.free + holdingCount s = capacity)
    (h : PoolStep s t) :
    t.capacity = capacity ∧ t.tasks.length = n ∧
      t.free + holdingCount t = capacity := by
  obtain ⟨hc, hl, hsum⟩ := hinv
  rw [holdingCount] at hsum
  cases h with
  | acquire i hi hfree =>
    refine ⟨hc, by simpa using hl, ?_⟩
    have hcnt := countP_set_waiting_to_holding s.tasks i hi
    simp only [holdingCount]
    omega
  | release i hi =>
    refine ⟨hc, by simpa using hl, ?_⟩
    have hcnt := countP_set_holding_to_finished s.tasks i hi
    simp only [holdingCount]
    omega
  | cancelWaiting i hi =>
    refine ⟨hc, by simpa using hl, ?_⟩
    have hcnt := countP_set_waiting_to_finished s.tasks i hi
    simp only [holdingCount]
    omega

lemma holdingCount_initPool (capacity n : ℕ) : holdingCount (initPool capacity n) = 0 := by
  rw [holdingCount, initPool]
  refine List.countP_eq_zero.mpr fun a ha => ?_
  rw [List.eq_of_mem_replicate ha]
  simp

/-- C10: in every state reachable from a pool of the given capacity with n
concurrently issued acquisitions, the number of concurrently held contexts
never exceeds the capacity, held plus free slots always equal the capacity
(so every exit from the holding phase returned its slot), the task count is
preserved, and at least n - capacity of the tasks are not holding a slot
(with capacity + k tasks, at least k are suspended or done).  Acquire steps
are enabled only while a slot is free, so excess acquisitions stay
suspended until a release. -/
theorem pool_bounded_concurrency (capacity n : ℕ) (s : PoolState)
    (h : PoolReachable (initPool capacity n) s) :
    holdingCount s ≤ capacity ∧
    s.free + holdingCount s = capacity ∧
    s.tasks.length = n ∧
    n - capacity ≤ s.tasks.countP (fun t => decide (¬t = .holding)) := by
  have hinv : s.capacity = capacity ∧ s.tasks.length = n ∧
      s.free + holdingCount s = capacity := by
    induction h with
    | refl =>
      exact ⟨rfl, by simp [initPool], by
        rw [holdingCount_initPool]; simp [initPool]⟩
    | step hr hstep ih => exact poolStep_invariant ih hstep
  obtain ⟨hc, hl, hsum⟩ := hinv
  have hsplit : s.tasks.countP (fun t => decide (t = TaskPhase.holding)) +
      s.tasks.countP (fun t => decide (¬t = .holding)) = s.tasks.length := by
    rw [s.tasks.length_eq_countP_add_countP (fun t => decide (t = TaskPhase.holding))]
    congr 1
    refine List.countP_congr fun x _ => ?_
    cases x <;> simp
  rw [holdingCount] at hsum
  refine ⟨by rw [holdingCount]; omega, by rw [holdingCount]; omega, hl, by omega⟩

/-- C10 witness: the invariant instantiated at the state reached after one
acquire step from a pool of capacity 2 with 3 issued acquisitions. -/
theorem pool_bounded_concurrency_witness :
    holdingCount poolAfterOneAcquire ≤ 2 ∧
    poolAfterOneAcquire.free + holdingCount poolAfterOneAcquire = 2 ∧
    poolAfterOneAcquire.tasks.length = 3 ∧
    3 - 2 ≤ poolAfterOneAcquire.tasks.countP (fun t => decide (¬t = .holding)) := by
  have hstep : PoolStep (initPool 2 3) poolAfterOneAcquire :=
    PoolStep.acquire (initPool 2 3) 0 rfl (by norm_num [initPool])
  exact pool_bounded_concurrency 2 3 _ (PoolReachable.step PoolReachable.refl hstep)

end TrafficSim
